import Mathlib

/-!
Verification of the indicator-computation layer of the cryptoapi service
(src/main.py) against its natural-language specification.

The numeric engine is embedded shallowly: rational arithmetic models the
profit/loss calculator (exact field arithmetic, no transcendental
functions appear there), and real arithmetic models EMA, volatility and
correlation (which use exp, log and sqrt). Typed error values model the
HTTP error paths.
-/

namespace CryptoAPI

/-! ## Profit/loss calculator (src/main.py, `calculate_profit_loss`)

The route takes four optional query parameters, validates them with a
Python truthiness test `not (crypto_name and amount and purchase_price
and operation)`, then fetches the market listing, looks the asset up by
id, and computes the profit/loss.  The upstream fetch result (the parsed
listing: a list of (id, current_price) pairs) is passed in as `data`;
the Bool in the result records whether the fetch was reached, since in
the source the request is issued only after the parameter check. -/

/-- Python truthiness of an optional string: `None` and `""` are falsy. -/
def truthy_str : Option String → Bool
  | none => false
  | some s => !(s == "")

/-- Python truthiness of an optional number: `None` and `0` are falsy. -/
def truthy_num : Option ℚ → Bool
  | none => false
  | some x => !(x == 0)

/-- The usage example appended to the missing-parameter error detail
(source line 342). -/
def example_message : String :=
  "Example: /profit-loss-calculator?crypto_name=bitcoin&amount=1&purchase_price=50000&operation=long"

/-- Result of the profit/loss route: an HTTPException (status code and
detail) or the JSON body fields that depend on the computation. -/
inductive PLResult where
  | httpError (status_code : Nat) (detail : String)
  | ok (crypto_name operation : String) (current_price : ℚ)
       (profit_loss_status : String) (profit_loss_value : ℚ)
deriving DecidableEq

/-- The lookup loop of source lines 353-356: first listing entry whose id
equals `crypto_name`, yielding its current price. -/
def find_current_price (data : List (String × ℚ)) (crypto_name : String) : Option ℚ :=
  match data.find? (fun crypto => crypto.1 == crypto_name) with
  | some crypto => some crypto.2
  | none => none

/-- Embedding of `calculate_profit_loss` (source lines 337-369).  The
second component of the result is true exactly when control reached the
upstream fetch (source line 346), i.e. when the truthiness guard passed.
When the guard passes every parameter is a truthy `some`, so the `getD`
defaults are never the values used. -/
def calculate_profit_loss (crypto_name : Option String) (amount purchase_price : Option ℚ)
    (operation : Option String) (data : List (String × ℚ)) : PLResult × Bool :=
  if !(truthy_str crypto_name && truthy_num amount && truthy_num purchase_price &&
       truthy_str operation) then
    (.httpError 400 ("Please provide the required parameters. " ++ example_message), false)
  else
    let cn := crypto_name.getD ""
    let a := amount.getD 0
    let pp := purchase_price.getD 0
    let op := operation.getD ""
    match find_current_price data cn with
    | none => (.httpError 404 "Cryptocurrency not found", true)
    | some current_price =>
      let profit_loss := (current_price - pp) * a
      let profit_loss := if op = "short" then -profit_loss else profit_loss
      let profit_loss_status := if profit_loss ≥ 0 then "profit" else "loss"
      (.ok cn op current_price profit_loss_status (|profit_loss| * a), true)

/-- Spec §4.4: the (possibly negated) base of the profit/loss
computation: `(currentPrice - purchasePrice) * amount`, negated when the
direction is "short". -/
def plBase (current_price purchase_price amount : ℚ) (operation : String) : ℚ :=
  if operation = "short" then -((current_price - purchase_price) * amount)
  else (current_price - purchase_price) * amount

/-- Spec §4.4: status is "profit" iff the base is nonnegative. -/
def plStatusSpec (current_price purchase_price amount : ℚ) (operation : String) : String :=
  if plBase current_price purchase_price amount operation ≥ 0 then "profit" else "loss"

/-- Spec §4.4: the returned magnitude `abs(base) * amount` (the source's
double multiplication by `amount`). -/
def plValueSpec (current_price purchase_price amount : ℚ) (operation : String) : ℚ :=
  |plBase current_price purchase_price amount operation| * amount

/-! ## Exponential moving average (src/main.py, `calculate_exponential_moving_average`)

`np.linspace(start, stop, num)` is `num` evenly spaced samples; for
`num = 1` numpy returns `[start]`, which the real-division-by-zero
convention reproduces.  `np.convolve(a, v, mode="full")` is the full
discrete convolution, of length `len(a) + len(v) - 1`. -/

/-- Embedding of `np.linspace` over the reals. -/
noncomputable def np_linspace (start stop : ℝ) (num : ℕ) : List ℝ :=
  (List.range num).map (fun i : ℕ => start + (i : ℝ) * ((stop - start) / ((num : ℝ) - 1)))

/-- Embedding of `np.convolve(a, v, mode="full")`: entry `k` is
`sum_j a[j] * v[k - j]`, out-of-range factors contributing zero. -/
noncomputable def np_convolve_full (a v : List ℝ) : List ℝ :=
  (List.range (a.length + v.length - 1)).map
    (fun k => ((List.range (k + 1)).map (fun j => a.getD j 0 * v.getD (k - j) 0)).sum)

/-- Embedding of `calculate_exponential_moving_average` (source lines
183-187): exponential weights over `np.linspace(-1, 0, window)`,
normalized by their sum, full convolution truncated to the first
`len(prices)` entries. -/
noncomputable def calculate_exponential_moving_average
    (prices : List ℝ) (window : ℕ) : List ℝ :=
  let weights0 := (np_linspace (-1) 0 window).map Real.exp
  let weights := weights0.map (fun w => w / weights0.sum)
  (np_convolve_full prices weights).take prices.length

/-- Linear interpolation, as used by the spec to describe the weights. -/
noncomputable def lerp (a b t : ℝ) : ℝ := a + t * (b - a)

/-- Spec §4.4 weight vector: `w_i = exp(lerp(-1, 0, i/(window-1)))` for
`i` in `[0, window-1]`. -/
noncomputable def emaSpecWeights (window : ℕ) : List ℝ :=
  (List.range window).map
    (fun i : ℕ => Real.exp (lerp (-1) 0 ((i : ℝ) / ((window : ℝ) - 1))))

/-- Spec §4.4 EMA: the full convolution of prices with the normalized
spec weight vector, truncated to the first `len(prices)` entries. -/
noncomputable def emaSpec (prices : List ℝ) (window : ℕ) : List ℝ :=
  let w := emaSpecWeights window
  let wn := w.map (fun x => x / w.sum)
  (np_convolve_full prices wn).take prices.length

/-- Typed error for the EMA contract (spec §7). -/
inductive EmaError where
  | InvalidWindow
deriving DecidableEq

/-- Modelled from the spec: the EMA contract with its typed
`InvalidWindow` rejection for non-positive windows.  The source's
`calculate_exponential_moving_average` has no explicit guard (numpy
raises opaque errors when `window < 1`); spec §4.4 and §7 mandate the
typed rejection exactly for `window < 1` and acceptance otherwise. -/
noncomputable def EMA (prices : List ℝ) (window : ℤ) : Except EmaError (List ℝ) :=
  if window < 1 then .error .InvalidWindow
  else .ok (calculate_exponential_moving_average prices window.toNat)

/-! ## Trend signals (src/main.py, `get_short_term_signal`, `get_long_term_signal`) -/

/-- The signal classification shared by the two signal routes (source
lines 190-231), with the EMA window as a parameter: "long" with label
"price above EMA {window}" when the last price strictly exceeds the last
EMA entry, else "short" with "price below EMA {window}". -/
noncomputable def get_signal (prices : List ℝ) (window : ℕ) : String × String :=
  let ema := calculate_exponential_moving_average prices window
  let current_price := prices.getLastD 0
  if current_price > ema.getLastD 0 then ("long", "price above EMA " ++ toString window)
  else ("short", "price below EMA " ++ toString window)

/-- Embedding of `get_short_term_signal` (source lines 190-209): the
signal classification at window 20. -/
noncomputable def get_short_term_signal (prices : List ℝ) : String × String :=
  get_signal prices 20

/-- Embedding of `get_long_term_signal` (source lines 212-231): the
signal classification at window 200. -/
noncomputable def get_long_term_signal (prices : List ℝ) : String × String :=
  get_signal prices 200

/-! ## Volatility (src/main.py, `calculate_volatility`) -/

/-- Embedding of `np.log` on a list. -/
noncomputable def np_log (xs : List ℝ) : List ℝ := xs.map Real.log

/-- Embedding of `np.diff`: consecutive differences. -/
noncomputable def np_diff (xs : List ℝ) : List ℝ :=
  (xs.zip xs.tail).map (fun p => p.2 - p.1)

/-- Embedding of `np.mean`. -/
noncomputable def npMean (xs : List ℝ) : ℝ := xs.sum / xs.length

/-- Population variance, the quantity under `np.std`'s square root
(numpy's default `ddof = 0`). -/
noncomputable def npVar (xs : List ℝ) : ℝ :=
  npMean (xs.map (fun x => (x - npMean xs) ^ 2))

/-- Embedding of `np.std` (population standard deviation). -/
noncomputable def npStd (xs : List ℝ) : ℝ := Real.sqrt (npVar xs)

/-- Embedding of `calculate_volatility` (source lines 282-285):
population standard deviation of the differenced logs, annualized by
`sqrt(252)`. -/
noncomputable def calculate_volatility (prices : List ℝ) : ℝ :=
  npStd (np_diff (np_log prices)) * Real.sqrt 252

/-- Spec §4.4 log-returns: `r_i = ln(prices[i]) - ln(prices[i-1])` for
`i = 1..n-1`, written by index. -/
noncomputable def specLogReturns (prices : List ℝ) : List ℝ :=
  (List.range (prices.length - 1)).map
    (fun i => Real.log (prices.getD (i + 1) 0) - Real.log (prices.getD i 0))

/-- Typed errors for the volatility contract (spec §7). -/
inductive VolatilityError where
  | InsufficientData
  | InvalidInput
deriving DecidableEq

open Classical in
/-- Modelled from the spec: the hardened `Volatility` contract.  The
source's `calculate_volatility` has no guards (numpy propagates NaN for
short series and non-positive prices); spec §4.4 mandates
`InsufficientData` for fewer than 2 prices and `InvalidInput` for any
price ≤ 0, in that order, and otherwise the source computation. -/
noncomputable def Volatility (prices : List ℝ) : Except VolatilityError ℝ :=
  if prices.length < 2 then .error .InsufficientData
  else if ∃ p ∈ prices, p ≤ 0 then .error .InvalidInput
  else .ok (calculate_volatility prices)

/-! ## Correlation (src/main.py, `get_correlation_analysis`) -/

/-- Embedding of `np.cov` of two equal-length samples (numpy's default
`ddof = 1`): mean-centered cross products summed and divided by
`n - 1`. -/
noncomputable def np_cov (x y : List ℝ) : ℝ :=
  ((x.zip y).map (fun p => (p.1 - npMean x) * (p.2 - npMean y))).sum / ((x.length : ℝ) - 1)

/-- Embedding of the off-diagonal entry of `np.corrcoef(x, y)` (source
lines 272-273): the covariance normalized by the geometric mean of the
variances. -/
noncomputable def np_corrcoef (x y : List ℝ) : ℝ :=
  np_cov x y / (Real.sqrt (np_cov x x) * Real.sqrt (np_cov y y))

/-- Typed error for the correlation contract (spec §7). -/
inductive CorrelationError where
  | LengthMismatch
deriving DecidableEq

/-- Modelled from the spec: the hardened `Correlation` contract.  The
source passes the two series straight to `np.corrcoef` with no length
validation (numpy fails opaquely on mismatch); spec §4.4 mandates a
typed `LengthMismatch` rejection of unequal lengths, and the Pearson
coefficient otherwise. -/
noncomputable def Correlation (a b : List ℝ) : Except CorrelationError ℝ :=
  if a.length = b.length then .ok (np_corrcoef a b)
  else .error .LengthMismatch

/-- Claim C1: with all four inputs present (and truthy) and the named
asset found at price `cp`, the route returns status "profit" iff the
(possibly negated) base `(cp - pp) * a` is nonnegative, and value
`abs(base) * a` (the double multiplication by amount); in particular
the two concrete examples from the spec hold. -/
theorem claim_C1 :
    (∀ (cn op : String) (a pp cp : ℚ) (data : List (String × ℚ)),
      cn ≠ "" → op ≠ "" → a ≠ 0 → pp ≠ 0 →
      find_current_price data cn = some cp →
      calculate_profit_loss (some cn) (some a) (some pp) (some op) data =
        (.ok cn op cp (plStatusSpec cp pp a op) (plValueSpec cp pp a op), true))
    ∧ calculate_profit_loss (some "bitcoin") (some 1) (some 50000) (some "long")
        [("bitcoin", 55000)] = (.ok "bitcoin" "long" 55000 "profit" 5000, true)
    ∧ calculate_profit_loss (some "bitcoin") (some 1) (some 50000) (some "short")
        [("bitcoin", 55000)] = (.ok "bitcoin" "short" 55000 "loss" 5000, true) := by
  refine ⟨?_, ?_, ?_⟩
  · intro cn op a pp cp data hcn hop ha hpp hfind
    have h1 : (cn == "") = false := beq_eq_false_iff_ne.mpr hcn
    have h2 : (op == "") = false := beq_eq_false_iff_ne.mpr hop
    have h3 : (a == 0) = false := beq_eq_false_iff_ne.mpr ha
    have h4 : (pp == 0) = false := beq_eq_false_iff_ne.mpr hpp
    simp only [calculate_profit_loss, truthy_str, truthy_num, h1, h2, h3, h4,
      Bool.not_false, Bool.and_self, Bool.and_true, Bool.true_and, Bool.not_true,
      Bool.false_eq_true, if_false, Option.getD_some, hfind,
      plStatusSpec, plValueSpec, plBase, ge_iff_le]
  · have h1 : ¬("bitcoin" : String) = "" := by decide
    have h2 : ¬("long" : String) = "" := by decide
    have h3 : ¬("long" : String) = "short" := by decide
    norm_num [calculate_profit_loss, truthy_str, truthy_num, find_current_price, h1, h2, h3]
  · have h1 : ¬("bitcoin" : String) = "" := by decide
    have h2 : ¬("short" : String) = "" := by decide
    norm_num [calculate_profit_loss, truthy_str, truthy_num, find_current_price, h1, h2]

/-- Concrete instance of the universal part of `claim_C1`, at the spec's
long example. -/
theorem claim_C1_witness :
    ("bitcoin" : String) ≠ "" ∧ ("long" : String) ≠ "" ∧ (1 : ℚ) ≠ 0 ∧ (50000 : ℚ) ≠ 0 ∧
    find_current_price [("bitcoin", 55000)] "bitcoin" = some 55000 ∧
    calculate_profit_loss (some "bitcoin") (some 1) (some 50000) (some "long")
      [("bitcoin", 55000)] =
      (.ok "bitcoin" "long" 55000 (plStatusSpec 55000 50000 1 "long")
        (plValueSpec 55000 50000 1 "long"), true) :=
  ⟨by decide, by decide, by norm_num, by norm_num, by decide,
   claim_C1.1 "bitcoin" "long" 1 50000 55000 [("bitcoin", 55000)]
     (by decide) (by decide) (by norm_num) (by norm_num) (by decide)⟩

/-- Claim C9: when any of the four query parameters is absent, the route
answers HTTP 400 with a detail string ending in the usage example, and
the upstream fetch (second component false) is never reached. -/
theorem claim_C9 :
    ∀ (cn : Option String) (a pp : Option ℚ) (op : Option String)
      (data : List (String × ℚ)),
      cn = none ∨ a = none ∨ pp = none ∨ op = none →
      calculate_profit_loss cn a pp op data =
        (.httpError 400 ("Please provide the required parameters. " ++ example_message),
         false) := by
  intro cn a pp op data h
  rcases h with h | h | h | h <;> subst h <;>
    simp [calculate_profit_loss, truthy_str, truthy_num]

/-- Concrete instance of `claim_C9`: a request missing `crypto_name`. -/
theorem claim_C9_witness :
    ((none : Option String) = none ∨ some (1 : ℚ) = none ∨ some (50000 : ℚ) = none ∨
      some "long" = none)
    ∧ calculate_profit_loss none (some 1) (some 50000) (some "long") [("bitcoin", 55000)] =
        (.httpError 400 ("Please provide the required parameters. " ++ example_message),
         false) :=
  ⟨Or.inl rfl,
   claim_C9 none (some 1) (some 50000) (some "long") [("bitcoin", 55000)] (Or.inl rfl)⟩

/-- Claim C10: the missing-parameter check is a falsiness test: amount 0,
purchase price 0, empty crypto name or empty operation each trigger the
HTTP 400 answer even though the parameter was supplied, and the upstream
fetch is not reached. -/
theorem claim_C10 :
    ∀ data : List (String × ℚ),
      calculate_profit_loss (some "bitcoin") (some 0) (some 50000) (some "long") data =
        (.httpError 400 ("Please provide the required parameters. " ++ example_message),
         false)
      ∧ calculate_profit_loss (some "bitcoin") (some 1) (some 0) (some "long") data =
        (.httpError 400 ("Please provide the required parameters. " ++ example_message),
         false)
      ∧ calculate_profit_loss (some "") (some 1) (some 50000) (some "long") data =
        (.httpError 400 ("Please provide the required parameters. " ++ example_message),
         false)
      ∧ calculate_profit_loss (some "bitcoin") (some 1) (some 50000) (some "") data =
        (.httpError 400 ("Please provide the required parameters. " ++ example_message),
         false) := by
  intro data
  exact ⟨rfl, rfl, rfl, rfl⟩

/-- The full convolution has length `len(a) + len(v) - 1`. -/
theorem np_convolve_full_length (a v : List ℝ) :
    (np_convolve_full a v).length = a.length + v.length - 1 := by
  simp [np_convolve_full]

/-- The exponential of the source's linspace is exactly the spec's
weight vector `exp(lerp(-1, 0, i/(window-1)))`. -/
theorem linspace_exp_eq (window : ℕ) :
    (np_linspace (-1) 0 window).map Real.exp = emaSpecWeights window := by
  simp only [np_linspace, emaSpecWeights, List.map_map]
  refine List.map_congr_left (fun i _ => ?_)
  simp only [Function.comp_apply, lerp]
  congr 1
  ring

/-- The EMA output has exactly `len(prices)` entries whenever the window
is at least 1. -/
theorem ema_length (prices : List ℝ) (window : ℕ) (h : 1 ≤ window) :
    (calculate_exponential_moving_average prices window).length = prices.length := by
  simp only [calculate_exponential_moving_average, List.length_take, np_convolve_full_length,
    List.length_map, np_linspace, List.length_range]
  omega

/-- Claim C2: for every price list and window ≥ 1, the source EMA equals
the spec EMA (full convolution with the normalized
`exp(lerp(-1, 0, i/(window-1)))` weight vector, truncated to the first
`len(prices)` entries), and its output length is `len(prices)`. -/
theorem claim_C2 :
    ∀ (prices : List ℝ) (window : ℕ), 1 ≤ window →
      calculate_exponential_moving_average prices window = emaSpec prices window ∧
      (calculate_exponential_moving_average prices window).length = prices.length := by
  intro prices window h
  refine ⟨?_, ema_length prices window h⟩
  simp only [calculate_exponential_moving_average, emaSpec, linspace_exp_eq]

/-- Concrete instance of `claim_C2` at window 1. -/
theorem claim_C2_witness :
    1 ≤ 1 ∧
    (calculate_exponential_moving_average [1, 2] 1 = emaSpec [1, 2] 1 ∧
     (calculate_exponential_moving_average [1, 2] 1).length = ([1, 2] : List ℝ).length) :=
  ⟨Nat.le_refl 1, claim_C2 [1, 2] 1 (Nat.le_refl 1)⟩

/-- Claim C5: the EMA contract rejects with `InvalidWindow` exactly the
non-positive windows; every window ≥ 1 — in particular one exceeding the
series length — is accepted and yields the source computation, of length
`len(prices)`. -/
theorem claim_C5 :
    ∀ (prices : List ℝ) (window : ℤ),
      (EMA prices window = .error .InvalidWindow ↔ window < 1) ∧
      (1 ≤ window →
        EMA prices window = .ok (calculate_exponential_moving_average prices window.toNat) ∧
        (calculate_exponential_moving_average prices window.toNat).length =
          prices.length) := by
  intro prices window
  constructor
  · constructor
    · intro h
      by_contra hlt
      simp [EMA, hlt] at h
    · intro h
      simp [EMA, h]
  · intro h
    have hnot : ¬ window < 1 := Int.not_lt.mpr h
    exact ⟨by simp [EMA, hnot], ema_length _ _ (by omega)⟩

/-- Concrete instance of `claim_C5`: window 5 on a series of length 3 is
accepted and still yields 3 output entries. -/
theorem claim_C5_witness :
    (1 : ℤ) ≤ 5 ∧
    (EMA [1, 2, 3] 5 = .ok (calculate_exponential_moving_average [1, 2, 3] (5 : ℤ).toNat) ∧
     (calculate_exponential_moving_average [1, 2, 3] (5 : ℤ).toNat).length =
       ([1, 2, 3] : List ℝ).length) :=
  ⟨by decide, (claim_C5 [1, 2, 3] 5).2 (by decide)⟩

/-- Claim C6: for every non-empty price series and EMA window, the
signal is "long" exactly when the last price strictly exceeds the last
EMA entry and "short" otherwise, always paired with the matching
position label; and on the spec's example series with window 3 the
signal is "long" iff `110 > ema[-1]`. -/
theorem claim_C6 :
    ∀ (prices : List ℝ) (window : ℕ), prices ≠ [] →
      ((get_signal prices window).1 = "long" ↔
        prices.getLastD 0 >
          (calculate_exponential_moving_average prices window).getLastD 0) ∧
      ((get_signal prices window).1 = "short" ↔
        ¬ prices.getLastD 0 >
          (calculate_exponential_moving_average prices window).getLastD 0) ∧
      (get_signal prices window = ("long", "price above EMA " ++ toString window) ∨
       get_signal prices window = ("short", "price below EMA " ++ toString window)) ∧
      ((get_signal [100, 102, 101, 105, 110] 3).1 = "long" ↔
        (110 : ℝ) >
          (calculate_exponential_moving_average [100, 102, 101, 105, 110] 3).getLastD 0) := by
  have hls : ("long" : String) ≠ "short" := by decide
  have key : ∀ (prices : List ℝ) (window : ℕ),
      ((get_signal prices window).1 = "long" ↔
        prices.getLastD 0 >
          (calculate_exponential_moving_average prices window).getLastD 0) ∧
      ((get_signal prices window).1 = "short" ↔
        ¬ prices.getLastD 0 >
          (calculate_exponential_moving_average prices window).getLastD 0) ∧
      (get_signal prices window = ("long", "price above EMA " ++ toString window) ∨
       get_signal prices window = ("short", "price below EMA " ++ toString window)) := by
    intro prices window
    by_cases h : prices.getLastD 0 >
        (calculate_exponential_moving_average prices window).getLastD 0
    · have hsig : get_signal prices window =
          ("long", "price above EMA " ++ toString window) := by
        simp only [get_signal]
        rw [if_pos h]
      rw [hsig]
      simp only [List.getLastD_eq_getLast?, gt_iff_lt] at h
      simp [h, hls]
    · have hsig : get_signal prices window =
          ("short", "price below EMA " ++ toString window) := by
        simp only [get_signal]
        rw [if_neg h]
      rw [hsig]
      simp only [List.getLastD_eq_getLast?, gt_iff_lt] at h
      have h2 := not_lt.mp h
      simp [h, h2, Ne.symm hls]
  intro prices window _
  refine ⟨(key prices window).1, (key prices window).2.1, (key prices window).2.2, ?_⟩
  have h110 : ([100, 102, 101, 105, 110] : List ℝ).getLastD 0 = 110 := rfl
  have hcase := (key [100, 102, 101, 105, 110] 3).1
  rwa [h110] at hcase

/-- Concrete instance of `claim_C6` at the spec's example series. -/
theorem claim_C6_witness :
    ([100, 102, 101, 105, 110] : List ℝ) ≠ [] ∧
    ((get_signal [100, 102, 101, 105, 110] 3).1 = "long" ↔
      (110 : ℝ) >
        (calculate_exponential_moving_average [100, 102, 101, 105, 110] 3).getLastD 0) :=
  ⟨List.cons_ne_nil _ _,
   (claim_C6 [100, 102, 101, 105, 110] 3 (List.cons_ne_nil _ _)).2.2.2⟩

/-- The source's `np.diff(np.log(prices))` is exactly the spec's
index-wise log-returns `ln(prices[i]) - ln(prices[i-1])`. -/
theorem np_diff_np_log (prices : List ℝ) :
    np_diff (np_log prices) = specLogReturns prices := by
  apply List.ext_getElem
  · simp [np_diff, np_log, specLogReturns]
  · intro i h1 h2
    simp only [np_diff, np_log, specLogReturns, List.getElem_map, List.getElem_zip,
      List.getElem_tail, List.getElem_range]
    have hlen : i < prices.length - 1 := by
      simpa [np_diff, np_log, specLogReturns] using h2
    rw [List.getD_eq_getElem prices 0 (by omega), List.getD_eq_getElem prices 0 (by omega)]

/-- Claim C3: the volatility contract fails with `InsufficientData` on
every series shorter than 2, with `InvalidInput` on every series of
length ≥ 2 containing a non-positive price, and succeeds on every other
input. -/
theorem claim_C3 :
    ∀ prices : List ℝ,
      (prices.length < 2 → Volatility prices = .error .InsufficientData) ∧
      (2 ≤ prices.length → (∃ p ∈ prices, p ≤ 0) →
        Volatility prices = .error .InvalidInput) ∧
      (2 ≤ prices.length → (∀ p ∈ prices, 0 < p) →
        Volatility prices = .ok (calculate_volatility prices)) := by
  intro prices
  refine ⟨?_, ?_, ?_⟩
  · intro h
    rw [Volatility, if_pos h]
  · intro h2 hex
    rw [Volatility, if_neg (by omega), if_pos hex]
  · intro h2 hpos
    rw [Volatility, if_neg (by omega),
      if_neg (fun ⟨p, hp, hple⟩ => absurd (hpos p hp) (not_lt.mpr hple))]

/-- Concrete instances of the three branches of `claim_C3`. -/
theorem claim_C3_witness :
    (([] : List ℝ).length < 2 ∧ Volatility [] = .error .InsufficientData) ∧
    (2 ≤ ([1, -1] : List ℝ).length ∧ (∃ p ∈ ([1, -1] : List ℝ), p ≤ 0) ∧
      Volatility [1, -1] = .error .InvalidInput) ∧
    (2 ≤ ([1, 1] : List ℝ).length ∧ (∀ p ∈ ([1, 1] : List ℝ), 0 < p) ∧
      Volatility [1, 1] = .ok (calculate_volatility [1, 1])) := by
  have hex : ∃ p ∈ ([1, -1] : List ℝ), p ≤ 0 := ⟨-1, by norm_num, by norm_num⟩
  have hpos : ∀ p ∈ ([1, 1] : List ℝ), 0 < p := by norm_num
  exact ⟨⟨by decide, (claim_C3 []).1 (by decide)⟩,
    ⟨by decide, hex, (claim_C3 [1, -1]).2.1 (by decide) hex⟩,
    ⟨by decide, hpos, (claim_C3 [1, 1]).2.2 (by decide) hpos⟩⟩

/-- Claim C4: on every series of length ≥ 2 with positive prices, the
volatility is the population standard deviation of the index-wise
log-returns, annualized by `sqrt(252)` — both for the raw source
computation and for the guarded contract. -/
theorem claim_C4 :
    ∀ prices : List ℝ, 2 ≤ prices.length → (∀ p ∈ prices, 0 < p) →
      calculate_volatility prices = npStd (specLogReturns prices) * Real.sqrt 252 ∧
      Volatility prices = .ok (npStd (specLogReturns prices) * Real.sqrt 252) := by
  intro prices h2 hpos
  have heq : calculate_volatility prices =
      npStd (specLogReturns prices) * Real.sqrt 252 := by
    rw [calculate_volatility, np_diff_np_log]
  refine ⟨heq, ?_⟩
  rw [Volatility, if_neg (by omega),
    if_neg (fun ⟨p, hp, hple⟩ => absurd (hpos p hp) (not_lt.mpr hple)), heq]

/-- Concrete instance of `claim_C4`. -/
theorem claim_C4_witness :
    2 ≤ ([1, 1] : List ℝ).length ∧ (∀ p ∈ ([1, 1] : List ℝ), 0 < p) ∧
    (calculate_volatility [1, 1] = npStd (specLogReturns [1, 1]) * Real.sqrt 252 ∧
     Volatility [1, 1] = .ok (npStd (specLogReturns [1, 1]) * Real.sqrt 252)) :=
  ⟨by decide, by norm_num, claim_C4 [1, 1] (by decide) (by norm_num)⟩

/-- Zipping a list with itself pairs each element with itself. -/
theorem zip_self (x : List ℝ) : x.zip x = x.map (fun a => (a, a)) := by
  induction x with
  | nil => rfl
  | cons a l ih => simp [ih]

/-- The covariance of a sample with itself is the centered sum of
squares over `n - 1`. -/
theorem np_cov_self (x : List ℝ) :
    np_cov x x =
      (x.map (fun a => (a - npMean x) ^ 2)).sum / ((x.length : ℝ) - 1) := by
  rw [np_cov, zip_self, List.map_map]
  congr 1
  congr 1
  refine List.map_congr_left (fun a _ => ?_)
  simp only [Function.comp_apply]
  ring

/-- The centered sum of squares is nonnegative. -/
theorem centered_sum_nonneg (x : List ℝ) :
    0 ≤ (x.map (fun a => (a - npMean x) ^ 2)).sum := by
  refine List.sum_nonneg (fun y hy => ?_)
  obtain ⟨a, -, rfl⟩ := List.mem_map.mp hy
  positivity

/-- The population variance is the centered sum of squares over `n`. -/
theorem npVar_eq (x : List ℝ) :
    npVar x = (x.map (fun a => (a - npMean x) ^ 2)).sum / (x.length : ℝ) := by
  rw [npVar, npMean, List.length_map]

/-- Claim C7: the correlation contract rejects every pair of unequal
length with `LengthMismatch`, and computes the Pearson coefficient on
every pair of equal length (no silent truncation). -/
theorem claim_C7 :
    ∀ a b : List ℝ,
      (a.length ≠ b.length → Correlation a b = .error .LengthMismatch) ∧
      (a.length = b.length → Correlation a b = .ok (np_corrcoef a b)) := by
  intro a b
  exact ⟨fun h => by rw [Correlation, if_neg h], fun h => by rw [Correlation, if_pos h]⟩

/-- Concrete instance of `claim_C7` at lengths 1 and 2. -/
theorem claim_C7_witness :
    ([1] : List ℝ).length ≠ ([1, 2] : List ℝ).length ∧
    Correlation [1] [1, 2] = .error .LengthMismatch :=
  ⟨by decide, (claim_C7 [1] [1, 2]).1 (by decide)⟩

/-- Claim C8: the correlation of a series of length ≥ 2 with nonzero
variance with itself is exactly 1. -/
theorem claim_C8 :
    ∀ x : List ℝ, 2 ≤ x.length → npVar x ≠ 0 → Correlation x x = .ok 1 := by
  intro x h2 hvar
  have hS0 : 0 ≤ (x.map (fun a => (a - npMean x) ^ 2)).sum := centered_sum_nonneg x
  have hSne : (x.map (fun a => (a - npMean x) ^ 2)).sum ≠ 0 := by
    intro h
    exact hvar (by rw [npVar_eq, h, zero_div])
  have hden : (0 : ℝ) < (x.length : ℝ) - 1 := by
    have h2r : (2 : ℝ) ≤ (x.length : ℝ) := by exact_mod_cast h2
    linarith
  have hc0 : 0 ≤ np_cov x x := by
    rw [np_cov_self]
    exact div_nonneg hS0 (le_of_lt hden)
  have hcne : np_cov x x ≠ 0 := by
    rw [np_cov_self]
    exact div_ne_zero hSne (ne_of_gt hden)
  rw [Correlation, if_pos rfl, np_corrcoef, Real.mul_self_sqrt hc0, div_self hcne]

/-- Concrete instance of `claim_C8` at the series `[0, 2]`, whose
population variance is 1. -/
theorem claim_C8_witness :
    2 ≤ ([0, 2] : List ℝ).length ∧ npVar [0, 2] ≠ 0 ∧ Correlation [0, 2] [0, 2] = .ok 1 := by
  have hvar : npVar ([0, 2] : List ℝ) ≠ 0 := by norm_num [npVar, npMean]
  exact ⟨by decide, hvar, claim_C8 [0, 2] (by decide) hvar⟩

end CryptoAPI
